import Mathlib

/-!
Verification development for the amap-weather server (`amap_weather.py`).

The Python module is embedded shallowly:

* `city_code_data` — the administrative-code index builder (source lines
  18–42).  A row of the loaded table is a `Record`; the Python dict is
  modelled as the ordered list of insertions it performs, with dict lookup
  (`.get`) modelled by `mapGet`, which returns the value of the *last*
  insertion for a key (Python dict assignment is last-write-wins).
* `format_weather_info` — the response normalizer (lines 72–108).  A raw
  JSON payload is a `RawPayload`; Python `dict.get` on a possibly missing
  field is an `Option String`, and an f-string renders a missing field as
  the text "None" (`pyStr`).  The Python function can return a string,
  fall off the end (returning Python `None`), or raise `AttributeError`;
  the result type `PyResult` distinguishes the three.
* `make_amap_request` — the HTTP gateway (lines 58–69).  The outcome of the
  single outbound call is a `TransportOutcome`; the body of the `try` block
  is `tryRequest`, and the surrounding `except Exception: return None` turns
  every raised exception into `none`.
* `get_lives` / `get_forecast` — the facade tools (lines 111–136), given the
  gateway outcome as an explicit argument.
* `get_city_code_by_cityname` — the single-code lookup (lines 145–149),
  modelled on the already URL-decoded composite name (the decoding itself is
  performed by the external `urllib.parse.unquote` collaborator).
-/

/-- One row of the administrative-code table: name, 6-digit adcode, citycode. -/
structure Record where
  name : String
  adCode : String
  cityCode : String
  deriving DecidableEq, Repr

/-- Source line 29: `ad_code[2:] == '0000'` classifies a province/municipality. -/
def isTop (r : Record) : Bool := r.adCode.drop 2 == "0000"

/-- Source line 33: `ad_code[-2:] == '00'` classifies a prefecture-level city. -/
def isCity (r : Record) : Bool := r.adCode.takeRight 2 == "00"

/-- The loop body of `city_code_data` (source lines 27–37): two string
accumulators `province` and `city`, one insertion per row. -/
def cityLoop : String → String → List Record → List (String × String)
  | _, _, [] => []
  | province, city, r :: rs =>
    if isTop r then (r.name, r.adCode) :: cityLoop r.name "" rs
    else if isCity r then (province ++ r.name, r.adCode) :: cityLoop province r.name rs
    else (province ++ city ++ r.name, r.adCode) :: cityLoop province city rs

/-- The index built by running the loop over *all* rows of a sequence. -/
def buildIndexAll (rows : List Record) : List (String × String) :=
  cityLoop "" "" rows

/-- `city_code_data` (source lines 18–42): the loop iterates over
`df.values[1:]`, i.e. over the tail of the loaded row sequence. -/
def city_code_data (rows : List Record) : List (String × String) :=
  cityLoop "" "" rows.tail

/-- Python `dict.get k`: the value of the last insertion under key `k`. -/
def mapGet (m : List (String × String)) (k : String) : Option String :=
  (m.reverse.find? (fun p => p.1 == k)).map Prod.snd

/-- `get_city_code_by_cityname` (source lines 145–149) applied to the already
URL-decoded composite name: `CITY_CODE_MAP.get(city_name, '')`. -/
def get_city_code_by_cityname (rows : List Record) (decodedName : String) : String :=
  (mapGet (city_code_data rows) decodedName).getD ""

/-- Modelled from the spec: the name of the nearest preceding top-level
record in a processed segment, or the empty string when there is none. -/
def provinceFor (pre : List Record) : String :=
  match pre.reverse.find? (fun r => isTop r) with
  | some r => r.name
  | none => ""

/-- Modelled from the spec: the name of the nearest preceding second-level
record that is not separated from the current position by a top-level
record, or the empty string when there is none. -/
def cityFor (pre : List Record) : String :=
  match (pre.reverse.takeWhile (fun r => !isTop r)).find? (fun r => isCity r) with
  | some r => r.name
  | none => ""

/-- Modelled from the spec: the composite key a record is inserted under,
given the records already processed: a top-level record keys by its own
name, a second-level one by the nearest preceding top-level name plus its
own, a third-level one by the nearest top-level and second-level names plus
its own. -/
def specKey (pre : List Record) (r : Record) : String :=
  if isTop r then r.name
  else if isCity r then provinceFor pre ++ r.name
  else provinceFor pre ++ cityFor pre ++ r.name

/-- Modelled from the spec: the insertion sequence predicted by `specKey`. -/
def specIndex (pre rows : List Record) : List (String × String) :=
  match rows with
  | [] => []
  | r :: rs => (specKey pre r, r.adCode) :: specIndex (pre ++ [r]) rs

/-- The three-record Guangdong example from the spec. -/
def gdRows : List Record :=
  [⟨"广东省", "440000", ""⟩, ⟨"广州市", "440100", ""⟩, ⟨"天河区", "440106", ""⟩]

/-- The first data row of the real AMap table (a country-level row the
builder deliberately skips). -/
def headerRow : Record := ⟨"中华人民共和国", "100000", ""⟩

/-- The three-entry index the spec's example expects. -/
def gdIndex : List (String × String) :=
  [("广东省", "440000"), ("广东省广州市", "440100"), ("广东省广州市天河区", "440106")]

theorem provinceFor_append (pre : List Record) (r : Record) :
    provinceFor (pre ++ [r]) = if isTop r then r.name else provinceFor pre := by
  unfold provinceFor
  by_cases h : isTop r = true <;>
    simp [List.reverse_append, List.find?_cons, h]

theorem cityFor_append (pre : List Record) (r : Record) :
    cityFor (pre ++ [r]) =
      if isTop r then "" else if isCity r then r.name else cityFor pre := by
  unfold cityFor
  by_cases ht : isTop r = true
  · simp [List.reverse_append, List.takeWhile_cons, ht]
  · by_cases hc : isCity r = true <;>
      simp [List.reverse_append, List.takeWhile_cons, List.find?_cons, ht, hc]

theorem cityLoop_eq_specIndex (rows : List Record) :
    ∀ pre : List Record, cityLoop (provinceFor pre) (cityFor pre) rows = specIndex pre rows := by
  induction rows with
  | nil => intro pre; rfl
  | cons r rs ih =>
    intro pre
    have hp := provinceFor_append pre r
    have hc := cityFor_append pre r
    by_cases ht : isTop r = true
    · rw [if_pos ht] at hp
      rw [if_pos ht] at hc
      have := ih (pre ++ [r])
      rw [hp, hc] at this
      simp [cityLoop, specIndex, specKey, ht, this]
    · by_cases hcity : isCity r = true
      · rw [if_neg ht, if_pos hcity] at hc
        rw [if_neg ht] at hp
        have := ih (pre ++ [r])
        rw [hp, hc] at this
        simp [cityLoop, specIndex, specKey, ht, hcity, this]
      · rw [if_neg ht, if_neg hcity] at hc
        rw [if_neg ht] at hp
        have := ih (pre ++ [r])
        rw [hp, hc] at this
        simp [cityLoop, specIndex, specKey, ht, hcity, this]

theorem cityLoop_length (rows : List Record) :
    ∀ p c : String, (cityLoop p c rows).length = rows.length := by
  induction rows with
  | nil => intro p c; rfl
  | cons r rs ih =>
    intro p c
    by_cases ht : isTop r = true
    · simp [cityLoop, ht, ih]
    · by_cases hc : isCity r = true <;> simp [cityLoop, ht, hc, ih]

/-- C1 (counterexample): on the spec's own three-record Guangdong example,
`city_code_data` skips the first record, so the built index has only two
entries, lacks the key 广东省, and is not the three-entry index the claim
demands. -/
theorem city_code_data_example_fails :
    city_code_data gdRows = [("广州市", "440100"), ("广州市天河区", "440106")] ∧
    mapGet (city_code_data gdRows) "广东省" = none ∧
    city_code_data gdRows ≠ gdIndex := by
  decide

/-- C1 (amended): `city_code_data` discards the first row of its input; for
the remaining rows it inserts each top-level record under its own name, each
second-level record under the nearest preceding top-level name plus its own,
and each third-level record under the nearest top-level and second-level
names plus its own (`specIndex`); in particular prefixing the Guangdong
example with the table's country-level first row yields exactly the
three-entry index of the spec. -/
theorem city_code_data_keys (hdr : Record) (rows : List Record) :
    city_code_data (hdr :: rows) = specIndex [] rows ∧
    city_code_data (headerRow :: gdRows) = gdIndex := by
  refine ⟨?_, by decide⟩
  exact cityLoop_eq_specIndex rows []

/-- C10: the index built by `city_code_data` on any nonempty row sequence
equals the index built from the tail of that sequence; the skipped first
record contributes no entry, so the index has one entry per remaining row. -/
theorem city_code_data_skips_first (r : Record) (rows : List Record) :
    city_code_data (r :: rows) = buildIndexAll rows ∧
    (city_code_data (r :: rows)).length = rows.length := by
  exact ⟨rfl, cityLoop_length rows "" ""⟩

/-- C6: the single-code lookup on the URL-decoded composite name returns
exactly the code last inserted for that key — a pair actually present in the
built index — and returns the empty string on any absent key; it is a total
function, so no error is possible. -/
theorem get_city_code_by_cityname_spec (rows : List Record) (name : String) :
    (∀ c, mapGet (city_code_data rows) name = some c →
      get_city_code_by_cityname rows name = c ∧ (name, c) ∈ city_code_data rows) ∧
    (mapGet (city_code_data rows) name = none → get_city_code_by_cityname rows name = "") := by
  constructor
  · intro c hc
    refine ⟨by simp [get_city_code_by_cityname, hc], ?_⟩
    unfold mapGet at hc
    cases hfind : (city_code_data rows).reverse.find? (fun p => p.1 == name) with
    | none => rw [hfind] at hc; simp at hc
    | some p =>
      rw [hfind] at hc
      simp at hc
      have hmem : p ∈ (city_code_data rows).reverse := List.mem_of_find?_eq_some hfind
      have hpred := List.find?_some hfind
      have h1 : p.1 = name := by simpa using hpred
      have h2 : (name, c) = p := by
        cases p
        simp_all
      rw [h2]
      exact List.mem_reverse.mp hmem
  · intro h
    simp [get_city_code_by_cityname, h]

/-- C6 witness: on the header-prefixed Guangdong table, the present key
广东省广州市 yields its inserted code and an absent key yields "". -/
theorem get_city_code_by_cityname_spec_witness :
    get_city_code_by_cityname (headerRow :: gdRows) "广东省广州市" = "440100" ∧
    get_city_code_by_cityname (headerRow :: gdRows) "上海市" = "" :=
  ⟨((get_city_code_by_cityname_spec (headerRow :: gdRows) "广东省广州市").1 "440100"
      (by decide)).1,
   (get_city_code_by_cityname_spec (headerRow :: gdRows) "上海市").2 (by decide)⟩

/-- Python string rendering inside an f-string: a missing field (`None`)
prints as the text "None". -/
def pyStr : Option String → String
  | none => "None"
  | some s => s

/-- One element of the `lives` array (source lines 77–85 read these keys). -/
structure LiveEntry where
  province : Option String
  city : Option String
  weather : Option String
  temperature : Option String
  winddirection : Option String
  windpower : Option String
  humidity : Option String
  reporttime : Option String
  deriving DecidableEq, Repr

/-- One element of the `casts` array (source lines 97–105 read these keys). -/
structure CastEntry where
  date : Option String
  week : Option String
  dayweather : Option String
  nightweather : Option String
  daytemp : Option String
  nighttemp : Option String
  daywind : Option String
  nightwind : Option String
  daypower : Option String
  nightpower : Option String
  deriving DecidableEq, Repr

/-- The `forecasts` object (source lines 90–94 read these keys). -/
structure Forecasts where
  province : Option String
  city : Option String
  reporttime : Option String
  casts : List CastEntry
  deriving DecidableEq, Repr

/-- A raw JSON payload as `format_weather_info` sees it: the two keys it
dispatches on, plus the number of any other keys (e.g. `status`, `info`),
which the formatter never reads but which affect Python truthiness. -/
structure RawPayload where
  lives : Option (List LiveEntry)
  forecasts : Option Forecasts
  otherKeys : Nat
  deriving DecidableEq, Repr

/-- Outcome of a Python function that declares `-> str`: a returned string,
an implicit `return None`, or an uncaught exception. -/
inductive PyResult where
  | ok (s : String)
  | retNone
  | fault
  deriving DecidableEq, Repr

/-- The f-string of the lives branch (source lines 77–85), before `.strip()`. -/
def lives_block (w : LiveEntry) : String :=
  "\n地区：" ++ pyStr w.province ++ " " ++ pyStr w.city ++
  "\n天气现象：" ++ pyStr w.weather ++
  "\n实时气温：" ++ pyStr w.temperature ++ "摄氏度" ++
  "\n风向描述：" ++ pyStr w.winddirection ++
  "\n风力级别：" ++ pyStr w.windpower ++ "级" ++
  "\n空气湿度：" ++ pyStr w.humidity ++
  "\n数据发布时间：" ++ pyStr w.reporttime ++ "\n"

/-- The header f-string of the forecast branch (source lines 89–93). -/
def forecast_header (fc : Forecasts) : String :=
  "\n地区：" ++ pyStr fc.province ++ " " ++ pyStr fc.city ++
  "\n预报发布时间：" ++ pyStr fc.reporttime ++ "\n"

/-- The per-day f-string of the forecast branch (source lines 96–106). -/
def cast_block (w : CastEntry) : String :=
  "\n日期：" ++ pyStr w.date ++ " 星期" ++ pyStr w.week ++
  "\n白天天气现象：" ++ pyStr w.dayweather ++
  "\n晚上天气现象：" ++ pyStr w.nightweather ++
  "\n白天温度：" ++ pyStr w.daytemp ++
  "\n晚上温度：" ++ pyStr w.nighttemp ++
  "\n白天风向：" ++ pyStr w.daywind ++
  "\n晚上风向：" ++ pyStr w.nightwind ++
  "\n白天风力：" ++ pyStr w.daypower ++ "级" ++
  "\n晚上风力：" ++ pyStr w.nightpower ++ "级\n"

/-- `format_weather_info` (source lines 72–108).  The lives branch returns
from inside the `for` loop, so an empty array falls off the end of the
function (`retNone`); the else branch calls `.get` on the value of a missing
`forecasts` key, an `AttributeError` on `None` (`fault`). -/
def format_weather_info (response : RawPayload) : PyResult :=
  match response.lives with
  | some entries =>
    match entries with
    | [] => PyResult.retNone
    | w :: _ => PyResult.ok (lives_block w).trim
  | none =>
    match response.forecasts with
    | none => PyResult.fault
    | some fc =>
      PyResult.ok
        (String.intercalate "---" (forecast_header fc :: fc.casts.map cast_block)).trim

/-- A completed HTTP exchange: status code and the JSON-parse of the body
(`none` when the body is not valid JSON). -/
structure HttpResponse where
  status : Nat
  jsonBody : Option RawPayload
  deriving DecidableEq, Repr

/-- Outcome of the single outbound call made by `make_amap_request`. -/
inductive TransportOutcome where
  | response (r : HttpResponse)
  | timeout
  | connectionError
  deriving DecidableEq, Repr

/-- The exceptions the `try` block of `make_amap_request` can raise. -/
inductive NetException where
  | timeoutExc
  | connectExc
  | statusExc (status : Nat)
  | decodeExc
  deriving DecidableEq, Repr

/-- The body of the `try` block (source lines 65–67): `client.get` raises on
timeout or connection error, `raise_for_status` raises on any non-2xx
status, and `response.json()` raises on an unparsable body. -/
def tryRequest : TransportOutcome → Except NetException RawPayload
  | TransportOutcome.timeout => Except.error NetException.timeoutExc
  | TransportOutcome.connectionError => Except.error NetException.connectExc
  | TransportOutcome.response r =>
    if 200 ≤ r.status ∧ r.status < 300 then
      match r.jsonBody with
      | some p => Except.ok p
      | none => Except.error NetException.decodeExc
    else Except.error (NetException.statusExc r.status)

/-- `make_amap_request` (source lines 58–69): `except Exception: return None`
maps every raised exception to an absent result. -/
def make_amap_request (o : TransportOutcome) : Option RawPayload :=
  match tryRequest o with
  | Except.ok p => some p
  | Except.error _ => none

/-- The URL template `AMAP_API_BASE` (source line 54) after `.format`. -/
def amap_url (adccode api_key ty : String) : String :=
  "https://restapi.amap.com/v3/weather/weatherInfo?city=" ++ adccode ++
    "&key=" ++ api_key ++ "&extensions=" ++ ty

/-- The `extensions` value `get_lives` substitutes (source line 115). -/
def get_lives_type : String := "base"

/-- The `extensions` value `get_forecast` substitutes (source line 129). -/
def get_forecast_type : String := "base"

/-- The request URL built by `get_lives` (source line 115). -/
def get_lives_url (api_key adccode : String) : String :=
  amap_url adccode api_key get_lives_type

/-- The request URL built by `get_forecast` (source line 129). -/
def get_forecast_url (api_key adccode : String) : String :=
  amap_url adccode api_key get_forecast_type

/-- Python truthiness of a parsed JSON dict: falsy exactly when it has no
keys at all. -/
def pyTruthy (p : RawPayload) : Bool :=
  p.lives.isSome || p.forecasts.isSome || p.otherKeys != 0

/-- The fixed apology string of `get_lives` (source line 119). -/
def livesApology : String := "Unable to fetch lives data for this city."

/-- The fixed apology string of `get_forecast` (source line 133). -/
def forecastApology : String := "Unable to fetch forecast data for this city."

/-- `get_lives` after the gateway call (source lines 116–122): the guard
`if not data` fires on an absent result or a falsy payload. -/
def get_lives_result (data : Option RawPayload) : PyResult :=
  match data with
  | none => PyResult.ok livesApology
  | some d => if pyTruthy d then format_weather_info d else PyResult.ok livesApology

/-- `get_forecast` after the gateway call (source lines 130–136). -/
def get_forecast_result (data : Option RawPayload) : PyResult :=
  match data with
  | none => PyResult.ok forecastApology
  | some d => if pyTruthy d then format_weather_info d else PyResult.ok forecastApology

/-- `get_lives` (source lines 111–122) as a function of the transport
outcome of its single gateway call. -/
def get_lives (o : TransportOutcome) : PyResult :=
  get_lives_result (make_amap_request o)

/-- `get_forecast` (source lines 125–136) as a function of the transport
outcome of its single gateway call. -/
def get_forecast (o : TransportOutcome) : PyResult :=
  get_forecast_result (make_amap_request o)

/-- A successfully parsed but empty JSON object: no keys at all. -/
def emptyPayload : RawPayload := ⟨none, none, 0⟩

/-- C2: on a payload whose shape is a forecast report (the `forecasts` key
present, the mutually exclusive `lives` key absent), `format_weather_info`
returns the header block followed by one `cast_block` per entry of `casts`,
in input order, all joined by "---" and trimmed of surrounding whitespace;
the joined list has exactly N + 1 blocks for N day entries. -/
theorem format_weather_info_forecasts (fc : Forecasts) (k : Nat) :
    format_weather_info ⟨none, some fc, k⟩ =
      PyResult.ok
        (String.intercalate "---" (forecast_header fc :: fc.casts.map cast_block)).trim ∧
    (forecast_header fc :: fc.casts.map cast_block).length = fc.casts.length + 1 := by
  exact ⟨rfl, by simp⟩

/-- C3: on a payload with a non-empty `lives` array, `format_weather_info`
formats only the first element, into the labeled template with fields in the
order province, city, weather, temperature, wind direction, wind power,
humidity, report time; the remaining elements and every other part of the
payload do not occur in the result. -/
theorem format_weather_info_lives_first (w : LiveEntry) (rest : List LiveEntry)
    (fcs : Option Forecasts) (k : Nat) :
    format_weather_info ⟨some (w :: rest), fcs, k⟩ =
      PyResult.ok
        ("\n地区：" ++ pyStr w.province ++ " " ++ pyStr w.city ++
         "\n天气现象：" ++ pyStr w.weather ++
         "\n实时气温：" ++ pyStr w.temperature ++ "摄氏度" ++
         "\n风向描述：" ++ pyStr w.winddirection ++
         "\n风力级别：" ++ pyStr w.windpower ++ "级" ++
         "\n空气湿度：" ++ pyStr w.humidity ++
         "\n数据发布时间：" ++ pyStr w.reporttime ++ "\n").trim := rfl

/-- C7: on a payload carrying neither the `lives` key nor the `forecasts`
key, `format_weather_info` does not return a string: the else branch
dereferences the missing `forecasts` value and faults. -/
theorem format_weather_info_neither_key (k : Nat) :
    format_weather_info ⟨none, none, k⟩ = PyResult.fault := rfl

/-- C9: on a payload whose `lives` key holds an empty array, the lives
branch's loop body never runs, so `format_weather_info` falls off the end of
the function and returns Python `None` instead of a string. -/
theorem format_weather_info_empty_lives (fcs : Option Forecasts) (k : Nat) :
    format_weather_info ⟨some [], fcs, k⟩ = PyResult.retNone := rfl

/-- C5: whenever the single outbound exchange raises — timeout, connection
error, non-2xx status, or unparsable body — `make_amap_request` returns the
one absent-result value `none`, identical to what a timeout produces; it is
a total function, so no exception reaches the caller. -/
theorem make_amap_request_failure (o : TransportOutcome) (e : NetException)
    (h : tryRequest o = Except.error e) :
    make_amap_request o = none ∧
    make_amap_request o = make_amap_request TransportOutcome.timeout := by
  unfold make_amap_request
  rw [h]
  exact ⟨rfl, rfl⟩

/-- C5 witness: an HTTP 500 response raises in `raise_for_status` and yields
the same `none` as a timeout. -/
theorem make_amap_request_failure_witness :
    make_amap_request (TransportOutcome.response ⟨500, some emptyPayload⟩) = none ∧
    make_amap_request (TransportOutcome.response ⟨500, some emptyPayload⟩) =
      make_amap_request TransportOutcome.timeout :=
  make_amap_request_failure (TransportOutcome.response ⟨500, some emptyPayload⟩)
    (NetException.statusExc 500) rfl

/-- C4: `get_forecast` substitutes the same `extensions` flag "base" as
`get_lives` — not the forecast flag "all" — so for any key and location code
the two operations issue the identical request URL. -/
theorem get_forecast_requests_base :
    get_forecast_type = "base" ∧
    get_forecast_type ≠ "all" ∧
    get_forecast_type = get_lives_type ∧
    get_forecast_url "demo-key" "440106" = get_lives_url "demo-key" "440106" := by
  refine ⟨rfl, by decide, rfl, rfl⟩

/-- C8: when the exchange succeeds with HTTP 200 but the body parses to an
empty JSON object, the falsy-data guard of both tools fires: each returns
its apology string, exactly as on a transport failure, and the payload never
reaches `format_weather_info` (which would fault on it). -/
theorem empty_payload_conflated_with_failure :
    get_lives (TransportOutcome.response ⟨200, some emptyPayload⟩) =
      PyResult.ok livesApology ∧
    get_forecast (TransportOutcome.response ⟨200, some emptyPayload⟩) =
      PyResult.ok forecastApology ∧
    get_lives (TransportOutcome.response ⟨200, some emptyPayload⟩) =
      get_lives TransportOutcome.timeout ∧
    format_weather_info emptyPayload = PyResult.fault := by
  exact ⟨rfl, rfl, rfl, rfl⟩
